import Mathlib

set_option maxHeartbeats 1000000

/-!
Shallow embedding of the saleTracker backend (FastAPI + Cosmos DB).

The identity extractor (`app/auth/swa_auth.py`) is modelled over a small JSON
value type; the storage gateway (`app/services/cosmos_service.py`) is modelled
with the Cosmos container as a list of sale items, point reads as `find?` by
partition key + id, queries as filter/sort/take, and the four dashboard
aggregates as query-result lists with the code's null/empty extraction.
Route handlers from `app/api/sales.py` and `app/api/dashboard.py` are modelled
as functions returning an HTTP status together with the response body and the
resulting store.
-/

/-- JSON values, as produced by `json.loads` on the decoded identity header. -/
inductive Json where
  | null
  | bool (b : Bool)
  | num (q : ℚ)
  | str (s : String)
  | arr (xs : List Json)
  | obj (kvs : List (String × Json))

/-- Python truthiness of a JSON value (`if not x` tests). -/
def Json.truthy : Json → Bool
  | .null => false
  | .bool b => b
  | .num q => decide (q ≠ 0)
  | .str s => decide (s ≠ "")
  | .arr xs => !xs.isEmpty
  | .obj kvs => !kvs.isEmpty

/-- `dict.get(k)`: last binding wins (Python dicts built by `json.loads` keep
the last duplicate key); absent key yields `None`, modelled as `Json.null`. -/
def dictGet (kvs : List (String × Json)) (k : String) : Json :=
  match kvs.reverse.find? (fun p => p.1 == k) with
  | some p => p.2
  | none => Json.null

/-- `dict.get(k, d)`: like `dictGet` but with an explicit default. -/
def dictGetD (kvs : List (String × Json)) (k : String) (d : Json) : Json :=
  match kvs.reverse.find? (fun p => p.1 == k) with
  | some p => p.2
  | none => d

/-- The user dictionary returned by `get_current_user`. -/
structure AuthUser where
  userId : Json
  userDetails : Json
  provider : Json
  claims : Json

/-- Outcome of `get_current_user`: success, an `HTTPException(401, detail)`,
or an uncaught Python `AttributeError` (calling `.get` on a non-dict). -/
inductive AuthResult where
  | ok (user : AuthUser)
  | unauthorized (detail : String)
  | attributeError

/-- The `x-ms-client-principal` header as seen after the stdlib base64/JSON
layer: absent (or empty, hence falsy), present but failing to decode/parse
(`binascii.Error`/`UnicodeDecodeError`/`json.JSONDecodeError`, all caught as
`ValueError`), or successfully decoded to a JSON value. -/
inductive PrincipalHeader where
  | missing
  | undecodable
  | decoded (j : Json)

/-- `get_current_user` from `app/auth/swa_auth.py`. -/
def get_current_user : PrincipalHeader → AuthResult
  | .missing => .unauthorized ("Authentication required. No client principal found.")
  | .undecodable => .unauthorized ("Invalid authentication data: decode or parse failure")
  | .decoded (.obj kvs) =>
      let user_id := dictGet kvs ("userId")
      let user_details := dictGet kvs ("userDetails")
      let provider := dictGet kvs ("identityProvider")
      if user_id.truthy then
        .ok { userId := user_id
              userDetails := if user_details.truthy then user_details else .str ("Unknown User")
              provider := if provider.truthy then provider else .str ("unknown")
              claims := dictGetD kvs ("claims") (.arr []) }
      else
        .unauthorized ("Invalid authentication. User ID not found.")
  | .decoded _ => .attributeError

/-- Sales platforms (`app/models/sales.py`, `Platform`). -/
inductive Platform where
  | ebay
  | goat
  | stockx
  | manual
deriving DecidableEq

/-- Complete sale item (`app/models/sales.py`, `SaleItem`). Amounts are
modelled as rationals. -/
structure SaleItem where
  id : String
  userId : String
  productName : String
  amount : ℚ
  saleDate : String
  customerName : Option String
  platform : Platform
  createdAt : String
  updatedAt : String
deriving DecidableEq

/-- Create payload (`SaleCreate`): client-settable fields only. -/
structure SaleCreate where
  productName : String
  amount : ℚ
  saleDate : String
  customerName : Option String
  platform : Platform
deriving DecidableEq

/-- Pydantic validation constraints on `SaleCreate`: `productName` 1..200
chars, `amount > 0`, `customerName` at most 100 chars when given. -/
def SaleCreate.valid (d : SaleCreate) : Prop :=
  0 < d.amount ∧ 1 ≤ d.productName.length ∧ d.productName.length ≤ 200 ∧
    (∀ c, d.customerName = some c → c.length ≤ 100)

/-- Partial-update payload (`SaleUpdate`). The outer `Option` is pydantic's
unset marker (`model_dump(exclude_unset=True)` drops `none` fields); for
`customerName`, which is nullable in the stored item, an explicitly supplied
null is meaningful, hence the nested `Option`. -/
structure SaleUpdate where
  productName : Option String
  amount : Option ℚ
  saleDate : Option String
  customerName : Option (Option String)
  platform : Option Platform
deriving DecidableEq

/-- Dashboard statistics (`DashboardStats`). -/
structure DashboardStats where
  totalSales : ℚ
  totalItems : ℕ
  thisMonth : ℚ
  avgPrice : ℚ
deriving DecidableEq

/-- Recent-sale projection (`RecentSale`). -/
structure RecentSale where
  id : String
  productName : String
  amount : ℚ
  saleDate : String
  platform : Platform
  customerName : Option String
deriving DecidableEq

/-- Python exceptions raised by the service layer. -/
inductive PyErr where
  | valueError (msg : String)
  | runtimeError (msg : String)
deriving DecidableEq

/-- The Cosmos container holding all tenants' sale documents. -/
abbrev Store := List SaleItem

/-- Document key match: partition key (`userId`) plus item `id`. -/
def matchKey (pk id : String) (s : SaleItem) : Bool :=
  decide (s.userId = pk) && decide (s.id = id)

/-- Cosmos point read `container.read_item(item=id, partition_key=pk)`. -/
def cosmosReadItem (store : Store) (pk id : String) : Option SaleItem :=
  store.find? (matchKey pk id)

/-- `ORDER BY c.saleDate DESC`, performed by the store. -/
def sortBySaleDateDesc (l : List SaleItem) : List SaleItem :=
  l.mergeSort (fun a b => decide (b.saleDate ≤ a.saleDate))

/-- The `SaleItem` constructed by `create_sale`: payload fields plus the
server-assigned id and the shared creation/update timestamp. -/
def newSaleItem (user_id : String) (sale_data : SaleCreate)
    (now sale_id : String) : SaleItem :=
  { id := sale_id
    userId := user_id
    productName := sale_data.productName
    amount := sale_data.amount
    saleDate := sale_data.saleDate
    customerName := sale_data.customerName
    platform := sale_data.platform
    createdAt := now
    updatedAt := now }

/-- `CosmosService.create_sale`. With no client (degraded mode) it returns a
mock item without persisting; otherwise it inserts, raising `ValueError` when
an item with the same id already exists in the partition. -/
def create_sale (client : Bool) (user_id : String) (sale_data : SaleCreate)
    (now sale_id : String) (store : Store) : Except PyErr (SaleItem × Store) :=
  let sale_item : SaleItem := newSaleItem user_id sale_data now sale_id
  if !client then
    .ok (sale_item, store)
  else if (cosmosReadItem store user_id sale_id).isSome then
    .error (.valueError ("Sale with this ID already exists"))
  else
    .ok (sale_item, store ++ [sale_item])

/-- `CosmosService.get_sale`: point read; absent is `none`, degraded mode
raises `RuntimeError`. -/
def get_sale (client : Bool) (user_id sale_id : String) (store : Store) :
    Except PyErr (Option SaleItem) :=
  if !client then
    .error (.runtimeError ("Cosmos DB client not initialized. Please check your connection string."))
  else
    .ok (cosmosReadItem store user_id sale_id)

/-- `CosmosService.get_sales_by_user`: tenant-filtered query ordered by
`saleDate` descending, at most `limit` items; degraded mode returns `[]`. -/
def get_sales_by_user (client : Bool) (user_id : String) (limit : ℤ)
    (store : Store) : Except PyErr (List SaleItem) :=
  if !client then
    .ok []
  else
    .ok ((sortBySaleDateDesc (store.filter (fun s => decide (s.userId = user_id)))).take limit.toNat)

/-- The merge step of `CosmosService.update_sale`: apply exactly the fields
present in the payload over the existing item and stamp `updatedAt`; `id`,
`userId` and `createdAt` are not part of the payload and stay unchanged. -/
def mergeUpdate (existing_item : SaleItem) (update_data : SaleUpdate)
    (now : String) : SaleItem :=
  { existing_item with
      productName := update_data.productName.getD existing_item.productName
      amount := update_data.amount.getD existing_item.amount
      saleDate := update_data.saleDate.getD existing_item.saleDate
      customerName :=
        match update_data.customerName with
        | none => existing_item.customerName
        | some c => c
      platform := update_data.platform.getD existing_item.platform
      updatedAt := now }

/-- `CosmosService.update_sale`: read-merge-write. Returns `none` without
writing when the item is absent; degraded mode raises `RuntimeError`. -/
def update_sale (client : Bool) (user_id sale_id : String)
    (update_data : SaleUpdate) (now : String) (store : Store) :
    Except PyErr (Option SaleItem × Store) :=
  if !client then
    .error (.runtimeError ("Cosmos DB client not initialized. Please check your connection string."))
  else
    match cosmosReadItem store user_id sale_id with
    | none => .ok (none, store)
    | some existing_item =>
        let updated := mergeUpdate existing_item update_data now
        .ok (some updated, store.map (fun s => if matchKey user_id sale_id s then updated else s))

/-- `CosmosService.delete_sale`: unconditional delete by partition key + id,
returning whether an item existed; degraded mode raises `RuntimeError`. -/
def delete_sale (client : Bool) (user_id sale_id : String) (store : Store) :
    Except PyErr (Bool × Store) :=
  if !client then
    .error (.runtimeError ("Cosmos DB client not initialized. Please check your connection string."))
  else if (cosmosReadItem store user_id sale_id).isSome then
    .ok (true, store.eraseP (matchKey user_id sale_id))
  else
    .ok (false, store)

/-- Extraction used by `get_dashboard_stats`: first row of the aggregate
result if present and non-null, else zero. -/
def firstOrZero : List (Option ℚ) → ℚ
  | [] => 0
  | none :: _ => 0
  | some v :: _ => v

/-- Same extraction for the `COUNT` aggregate. -/
def firstOrZeroNat : List (Option ℕ) → ℕ
  | [] => 0
  | none :: _ => 0
  | some v :: _ => v

/-- Cosmos `STARTSWITH(s, p)`: `p` is a character prefix of `s`. -/
def startsWithCosmos (s p : String) : Bool :=
  p.data.isPrefixOf s.data

/-- `CosmosService.get_dashboard_stats`: four independent tenant-scoped
aggregate queries. `SELECT VALUE SUM/AVG` over an empty record set yields no
rows; `COUNT(1)` always yields one row. Degraded mode returns zeroed stats. -/
def get_dashboard_stats (client : Bool) (user_id current_month : String)
    (store : Store) : Except PyErr DashboardStats :=
  if !client then
    .ok { totalSales := 0, totalItems := 0, thisMonth := 0, avgPrice := 0 }
  else
    let amounts := (store.filter (fun s => decide (s.userId = user_id))).map (fun s => s.amount)
    let month_amounts :=
      (store.filter (fun s => decide (s.userId = user_id) && startsWithCosmos s.saleDate current_month)).map
        (fun s => s.amount)
    let total_sales_result : List (Option ℚ) :=
      if amounts.isEmpty then [] else [some amounts.sum]
    let total_items_result : List (Option ℕ) := [some amounts.length]
    let avg_price_result : List (Option ℚ) :=
      if amounts.isEmpty then [] else [some (amounts.sum / (amounts.length : ℚ))]
    let this_month_result : List (Option ℚ) :=
      if month_amounts.isEmpty then [] else [some month_amounts.sum]
    .ok { totalSales := firstOrZero total_sales_result
          totalItems := firstOrZeroNat total_items_result
          thisMonth := firstOrZero this_month_result
          avgPrice := firstOrZero avg_price_result }

/-- Projection selected by the recent-sales query. -/
def toRecent (s : SaleItem) : RecentSale :=
  { id := s.id
    productName := s.productName
    amount := s.amount
    saleDate := s.saleDate
    platform := s.platform
    customerName := s.customerName }

/-- `CosmosService.get_recent_sales`: projected tenant query ordered by
`saleDate` descending, at most `limit` rows; degraded mode returns `[]`. -/
def get_recent_sales (client : Bool) (user_id : String) (limit : ℤ)
    (store : Store) : Except PyErr (List RecentSale) :=
  if !client then
    .ok []
  else
    .ok (((sortBySaleDateDesc (store.filter (fun s => decide (s.userId = user_id)))).take limit.toNat).map toRecent)

/-- Route `GET /api/sales/{id}` (`app/api/sales.py`): 404 when absent, 200
with the item otherwise; an uncaught service error becomes a 500. -/
def api_get_sale (client : Bool) (user_id sale_id : String) (store : Store) :
    ℕ × Option SaleItem :=
  match get_sale client user_id sale_id store with
  | .ok none => (404, none)
  | .ok (some s) => (200, some s)
  | .error _ => (500, none)

/-- Route `PUT /api/sales/{id}`: 404 when absent, 200 with the updated item
otherwise; also returns the resulting store. -/
def api_update_sale (client : Bool) (user_id sale_id : String)
    (update_data : SaleUpdate) (now : String) (store : Store) :
    ℕ × Option SaleItem × Store :=
  match update_sale client user_id sale_id update_data now store with
  | .ok (none, store') => (404, none, store')
  | .ok (some s, store') => (200, some s, store')
  | .error _ => (500, none, store)

/-- Route `DELETE /api/sales/{id}`: 204 on success, 404 when nothing was
deleted; also returns the resulting store. -/
def api_delete_sale (client : Bool) (user_id sale_id : String) (store : Store) :
    ℕ × Store :=
  match delete_sale client user_id sale_id store with
  | .ok (true, store') => (204, store')
  | .ok (false, store') => (404, store')
  | .error _ => (500, store)

/-- Route `GET /api/dashboard/recent` (`app/api/dashboard.py`): clamps the
requested limit with `min(limit, 20)` before delegating. -/
def api_get_recent_sales (client : Bool) (limit : ℤ) (user_id : String)
    (store : Store) : ℕ × List RecentSale :=
  let clamped := min limit 20
  match get_recent_sales client user_id clamped store with
  | .ok r => (200, r)
  | .error _ => (500, [])

/-- Lower-case hex digit of a nibble, as in `uuid.UUID.__str__`. -/
def hexChar (n : Fin 16) : Char :=
  if n.val < 10 then Char.ofNat (48 + n.val) else Char.ofNat (87 + n.val)

/-- `str(uuid.uuid4())`: the 32 hex nibbles of the UUID grouped 8-4-4-4-12
with hyphens. The nibble list is the randomness drawn for the UUID. -/
def uuid_str (ns : List (Fin 16)) : String :=
  let cs := ns.map hexChar
  String.mk (cs.take 8 ++ '-' :: ((cs.drop 8).take 4 ++ '-' ::
    ((cs.drop 12).take 4 ++ '-' :: ((cs.drop 16).take 4 ++ '-' :: cs.drop 20))))

theorem hexChar_injective : Function.Injective hexChar := by decide

theorem hexChar_ne_dash (n : Fin 16) : (decide (hexChar n ≠ Char.ofNat 45)) = true := by
  revert n; decide

theorem filter_dash_cons (l : List Char) :
    (Char.ofNat 45 :: l).filter (fun c => decide (c ≠ Char.ofNat 45)) =
      l.filter (fun c => decide (c ≠ Char.ofNat 45)) := rfl

/-- Dropping the hyphens from a UUID string recovers its hex digits. -/
theorem uuid_str_data_filter (ns : List (Fin 16)) :
    (uuid_str ns).data.filter (fun c => decide (c ≠ Char.ofNat 45)) = ns.map hexChar := by
  have hseg : ∀ l : List Char, l ⊆ ns.map hexChar →
      l.filter (fun c => decide (c ≠ Char.ofNat 45)) = l := by
    intro l hl
    apply List.filter_eq_self.mpr
    intro c hc
    obtain ⟨n, _, rfl⟩ := List.mem_map.mp (hl hc)
    exact hexChar_ne_dash n
  show ((ns.map hexChar).take 8 ++ Char.ofNat 45 :: _).filter _ = _
  rw [List.filter_append, filter_dash_cons,
    List.filter_append, filter_dash_cons,
    List.filter_append, filter_dash_cons,
    List.filter_append, filter_dash_cons,
    hseg _ (List.take_subset _ _),
    hseg _ (List.take_subset _ _ |>.trans (List.drop_subset _ _)),
    hseg _ (List.take_subset _ _ |>.trans (List.drop_subset _ _)),
    hseg _ (List.take_subset _ _ |>.trans (List.drop_subset _ _)),
    hseg _ (List.drop_subset _ _)]
  have e20 : ((ns.map hexChar).drop 16).drop 4 = (ns.map hexChar).drop 20 := by
    rw [List.drop_drop]
  have e16 : ((ns.map hexChar).drop 12).drop 4 = (ns.map hexChar).drop 16 := by
    rw [List.drop_drop]
  have e12 : ((ns.map hexChar).drop 8).drop 4 = (ns.map hexChar).drop 12 := by
    rw [List.drop_drop]
  have h20 : ((ns.map hexChar).drop 16).take 4 ++ (ns.map hexChar).drop 20 =
      (ns.map hexChar).drop 16 := by
    rw [← e20, List.take_append_drop]
  have h16 : ((ns.map hexChar).drop 12).take 4 ++ (ns.map hexChar).drop 16 =
      (ns.map hexChar).drop 12 := by
    rw [← e16, List.take_append_drop]
  have h12 : ((ns.map hexChar).drop 8).take 4 ++ (ns.map hexChar).drop 12 =
      (ns.map hexChar).drop 8 := by
    rw [← e12, List.take_append_drop]
  rw [h20, h16, h12, List.take_append_drop]

/-- Distinct random draws yield distinct UUID strings. -/
theorem uuid_str_injective : Function.Injective uuid_str := by
  intro a b h
  have hdata := congrArg (fun s : String => s.data.filter (fun c => decide (c ≠ Char.ofNat 45))) h
  simp only [uuid_str_data_filter] at hdata
  exact List.map_injective_iff.mpr hexChar_injective hdata

/-- A UUID string is never empty (it always carries its four hyphens). -/
theorem uuid_str_ne_empty (ns : List (Fin 16)) : uuid_str ns ≠ "" := by
  intro h
  have h2 := congrArg String.data h
  simp [uuid_str] at h2

/-- An element failing the predicate survives `eraseP`. -/
theorem mem_eraseP_of_not {α : Type} (p : α → Bool) (a : α) (hpa : p a = false) :
    ∀ l : List α, a ∈ l → a ∈ l.eraseP p := by
  intro l
  induction l with
  | nil => intro h; cases h
  | cons b t ih =>
      intro hal
      by_cases hpb : p b = true
      · rw [List.eraseP_cons_of_pos hpb]
        rcases List.mem_cons.mp hal with rfl | h
        · rw [hpa] at hpb; cases hpb
        · exact h
      · rw [List.eraseP_cons_of_neg hpb]
        rcases List.mem_cons.mp hal with rfl | h
        · exact List.mem_cons_self _ _
        · exact List.mem_cons_of_mem _ (ih h)

/-- When at most one element satisfies the predicate, `eraseP` leaves no
element satisfying it. -/
theorem find?_eraseP_of_count {α : Type} (p : α → Bool) (l : List α)
    (h : (l.filter p).length ≤ 1) : (l.eraseP p).find? p = none := by
  induction l with
  | nil => rfl
  | cons a t ih =>
      by_cases hpa : p a = true
      · rw [List.eraseP_cons_of_pos hpa]
        have hlen : (t.filter p).length = 0 := by
          rw [List.filter_cons_of_pos hpa, List.length_cons] at h
          omega
        have hnil : t.filter p = [] := List.length_eq_zero.mp hlen
        apply List.find?_eq_none.mpr
        intro x hx hpx
        have hmem : x ∈ t.filter p := List.mem_filter.mpr ⟨hx, hpx⟩
        rw [hnil] at hmem
        cases hmem
      · rw [List.eraseP_cons_of_neg hpa, List.find?_cons_of_neg _ hpa]
        apply ih
        rwa [List.filter_cons_of_neg hpa] at h

/-- Items returned by the tenant-scoped list query come from the store. -/
theorem mem_store_of_mem_listed {s : SaleItem} {l : List SaleItem} {n : ℕ}
    (h : s ∈ (sortBySaleDateDesc l).take n) : s ∈ l :=
  List.mem_mergeSort.mp (List.take_subset _ _ h)

/-- Whether an `AuthResult` is the 401 `HTTPException`. -/
def is401 : AuthResult → Bool
  | .unauthorized _ => true
  | _ => false

/-- Claim C2, counterexample: a header that base64-decodes and JSON-parses to
the non-object payload `5` lacks a `userId`, yet `get_current_user` does not
raise the 401 `HTTPException`: `client_principal.get` on the non-dict raises
an uncaught `AttributeError` (surfaced by the framework as a 500). And a
payload that does carry a `userId` — the empty string — is still rejected
with 401, so the stated iff fails in both directions. -/
theorem get_current_user_non_object_cex :
    get_current_user (PrincipalHeader.decoded (Json.num 5)) = AuthResult.attributeError ∧
      is401 (get_current_user (PrincipalHeader.decoded (Json.num 5))) = false ∧
      get_current_user (PrincipalHeader.decoded (Json.obj [(("userId"), Json.str (""))])) =
        AuthResult.unauthorized ("Invalid authentication. User ID not found.") :=
  ⟨rfl, rfl, rfl⟩

/-- Claim C2 (amended): `get_current_user` raises the 401 `HTTPException`
exactly when the header is missing, undecodable/unparsable, or parses to a
JSON object without a truthy `userId`; a payload that parses to a non-object
instead raises an uncaught `AttributeError` (a generic 500), not a 401. -/
theorem get_current_user_fails_closed (h : PrincipalHeader) :
    is401 (get_current_user h) = true ↔
      h = PrincipalHeader.missing ∨ h = PrincipalHeader.undecodable ∨
        ∃ kvs, h = PrincipalHeader.decoded (Json.obj kvs) ∧
          (dictGet kvs ("userId")).truthy = false := by
  cases h with
  | missing => simp [get_current_user, is401]
  | undecodable => simp [get_current_user, is401]
  | decoded j =>
      cases j with
      | null => simp [get_current_user, is401]
      | bool b => simp [get_current_user, is401]
      | num q => simp [get_current_user, is401]
      | str s => simp [get_current_user, is401]
      | arr xs => simp [get_current_user, is401]
      | obj kvs =>
          by_cases ht : (dictGet kvs ("userId")).truthy
          · simp [get_current_user, is401, ht]
          · simp [get_current_user, is401, ht]

/-- Claim C2, witness: the amended equivalence at the missing-header input. -/
theorem get_current_user_fails_closed_witness :
    is401 (get_current_user PrincipalHeader.missing) = true :=
  (get_current_user_fails_closed PrincipalHeader.missing).mpr (Or.inl rfl)

/-- Claim C10: with an object payload, a falsy `userId` (absent, null, or
empty string) is rejected with the 401 `HTTPException`; and on success the
sentinel defaults replace `userDetails`/`identityProvider` whenever those are
falsy (null or empty string), not only when absent. -/
theorem get_current_user_falsy_fields (kvs : List (String × Json)) :
    ((dictGet kvs ("userId")).truthy = false →
      get_current_user (PrincipalHeader.decoded (Json.obj kvs)) =
        AuthResult.unauthorized ("Invalid authentication. User ID not found.")) ∧
    (∀ u, get_current_user (PrincipalHeader.decoded (Json.obj kvs)) = AuthResult.ok u →
      ((dictGet kvs ("userDetails")).truthy = false →
        u.userDetails = Json.str ("Unknown User")) ∧
      ((dictGet kvs ("identityProvider")).truthy = false →
        u.provider = Json.str ("unknown"))) := by
  by_cases ht : (dictGet kvs ("userId")).truthy
  · refine ⟨fun hf => ?_, fun u hu => ?_⟩
    · rw [hf] at ht; cases ht
    simp only [get_current_user, ht, if_true] at hu
    cases hu
    constructor
    · intro hd; simp [hd]
    · intro hp; simp [hp]
  · have ht' : (dictGet kvs ("userId")).truthy = false := by
      cases hv : (dictGet kvs ("userId")).truthy
      · rfl
      · exact absurd hv ht
    refine ⟨fun _ => ?_, fun u hu => ?_⟩
    · simp [get_current_user, ht']
    · simp [get_current_user, ht'] at hu

/-- Claim C10, witness: an empty-string `userId` is rejected 401; with a
truthy `userId`, empty-string `userDetails` and null `identityProvider` are
replaced by the sentinel defaults. -/
theorem get_current_user_falsy_fields_witness :
    ((dictGet [(("userId"), Json.str (""))] ("userId")).truthy = false ∧
      get_current_user (PrincipalHeader.decoded (Json.obj [(("userId"), Json.str (""))])) =
        AuthResult.unauthorized ("Invalid authentication. User ID not found.")) ∧
    (∃ u, get_current_user (PrincipalHeader.decoded (Json.obj
        [(("userId"), Json.str ("u1")), (("userDetails"), Json.str ("")),
          (("identityProvider"), Json.null)])) = AuthResult.ok u ∧
      u.userDetails = Json.str ("Unknown User") ∧ u.provider = Json.str ("unknown")) :=
  ⟨⟨rfl, (get_current_user_falsy_fields [(("userId"), Json.str (""))]).1 rfl⟩,
    ⟨_, rfl,
      ((get_current_user_falsy_fields [(("userId"), Json.str ("u1")),
        (("userDetails"), Json.str ("")), (("identityProvider"), Json.null)]).2 _ rfl).1 rfl,
      ((get_current_user_falsy_fields [(("userId"), Json.str ("u1")),
        (("userDetails"), Json.str ("")), (("identityProvider"), Json.null)]).2 _ rfl).2 rfl⟩⟩

/-- Claim C1: tenant isolation. A sale stored under another tenant's
`userId` is excluded from the caller's list; point read, update and delete on
its id behave as if it were absent (404 at the route layer, no mutation); and
no operation returns or touches a sale whose `userId` differs from the
caller's. -/
theorem tenant_isolation (store : Store) (s : SaleItem) (B : String)
    (hs : s ∈ store) (hB : B ≠ s.userId)
    (huniq : ∀ t ∈ store, t.id = s.id → t = s) :
    (∀ limit r, get_sales_by_user true B limit store = Except.ok r →
        s ∉ r ∧ ∀ t ∈ r, t.userId = B) ∧
    get_sale true B s.id store = Except.ok none ∧
    api_get_sale true B s.id store = (404, none) ∧
    (∀ u now, update_sale true B s.id u now store = Except.ok (none, store) ∧
        api_update_sale true B s.id u now store = (404, none, store)) ∧
    delete_sale true B s.id store = Except.ok (false, store) ∧
    api_delete_sale true B s.id store = (404, store) ∧
    (∀ sid t, get_sale true B sid store = Except.ok (some t) → t.userId = B) ∧
    (∀ sid u now res store', update_sale true B sid u now store = Except.ok (res, store') →
        ∀ t ∈ store, t.userId ≠ B → t ∈ store') ∧
    (∀ sid b store', delete_sale true B sid store = Except.ok (b, store') →
        ∀ t ∈ store, t.userId ≠ B → t ∈ store') := by
  have hread : cosmosReadItem store B s.id = none := by
    apply List.find?_eq_none.mpr
    intro t htmem hmk
    rw [matchKey] at hmk
    rcases Bool.and_eq_true_iff.mp hmk with ⟨ha, hb⟩
    have h1 : t.userId = B := of_decide_eq_true ha
    have h2 : t.id = s.id := of_decide_eq_true hb
    have hts := huniq t htmem h2
    rw [hts] at h1
    exact hB h1.symm
  refine ⟨?_, ?_, ?_, ?_, ?_, ?_, ?_, ?_, ?_⟩
  · intro limit r hr
    have hr' : r =
        (sortBySaleDateDesc (store.filter (fun x => decide (x.userId = B)))).take limit.toNat := by
      simp only [get_sales_by_user, Bool.not_true, Bool.false_eq_true, if_false,
        Except.ok.injEq] at hr
      exact hr.symm
    have hall : ∀ t ∈ r, t.userId = B := by
      intro t htr
      rw [hr'] at htr
      have h1 := List.mem_mergeSort.mp (List.take_subset _ _ htr)
      exact of_decide_eq_true (List.mem_filter.mp h1).2
    exact ⟨fun hsr => hB (hall s hsr).symm, hall⟩
  · simp [get_sale, hread]
  · simp [api_get_sale, get_sale, hread]
  · intro u now
    constructor
    · simp [update_sale, hread]
    · simp [api_update_sale, update_sale, hread]
  · simp [delete_sale, hread]
  · simp [api_delete_sale, delete_sale, hread]
  · intro sid t hgt
    simp only [get_sale, Bool.not_true, Bool.false_eq_true, if_false,
      Except.ok.injEq] at hgt
    have hmk := List.find?_some hgt
    rw [matchKey] at hmk
    exact of_decide_eq_true (Bool.and_eq_true_iff.mp hmk).1
  · intro sid u now res store' hupd t htmem htB
    rcases hro : cosmosReadItem store B sid with _ | ex
    · simp only [update_sale, hro, Bool.not_true, Bool.false_eq_true, if_false,
        Except.ok.injEq, Prod.mk.injEq] at hupd
      rw [← hupd.2]
      exact htmem
    · simp only [update_sale, hro, Bool.not_true, Bool.false_eq_true, if_false,
        Except.ok.injEq, Prod.mk.injEq] at hupd
      rw [← hupd.2]
      refine List.mem_map.mpr ⟨t, htmem, ?_⟩
      have hmf : matchKey B sid t = false := by
        simp [matchKey, fun h => htB h]
      simp [hmf]
  · intro sid b store' hdel t htmem htB
    have hmf : matchKey B sid t = false := by
      simp [matchKey, fun h => htB h]
    rcases hro : cosmosReadItem store B sid with _ | ex
    · simp only [delete_sale, hro, Option.isSome_none, Bool.not_true,
        Bool.false_eq_true, if_false, Except.ok.injEq, Prod.mk.injEq] at hdel
      rw [← hdel.2]
      exact htmem
    · simp only [delete_sale, hro, Option.isSome_some, Bool.not_true,
        Bool.false_eq_true, if_false, if_true, Except.ok.injEq, Prod.mk.injEq] at hdel
      rw [← hdel.2]
      exact mem_eraseP_of_not _ _ hmf _ htmem

/-- Concrete sale of tenant A used to witness tenant isolation. -/
def saleA : SaleItem :=
  { id := ("sale-1")
    userId := ("A")
    productName := ("Widget")
    amount := 10
    saleDate := ("2024-03-01T00:00:00Z")
    customerName := none
    platform := Platform.manual
    createdAt := ("2024-03-01T00:00:01+00:00")
    updatedAt := ("2024-03-01T00:00:01+00:00") }

/-- Claim C1, witness: tenant isolation instantiated at a one-item store of
tenant A queried by tenant B. -/
theorem tenant_isolation_witness :
    (saleA ∈ [saleA] ∧ ("B" : String) ≠ saleA.userId ∧
      (∀ t ∈ [saleA], t.id = saleA.id → t = saleA)) ∧
    ((∀ limit r, get_sales_by_user true ("B") limit [saleA] = Except.ok r →
        saleA ∉ r ∧ ∀ t ∈ r, t.userId = ("B")) ∧
    get_sale true ("B") saleA.id [saleA] = Except.ok none ∧
    api_get_sale true ("B") saleA.id [saleA] = (404, none) ∧
    (∀ u now, update_sale true ("B") saleA.id u now [saleA] = Except.ok (none, [saleA]) ∧
        api_update_sale true ("B") saleA.id u now [saleA] = (404, none, [saleA])) ∧
    delete_sale true ("B") saleA.id [saleA] = Except.ok (false, [saleA]) ∧
    api_delete_sale true ("B") saleA.id [saleA] = (404, [saleA]) ∧
    (∀ sid t, get_sale true ("B") sid [saleA] = Except.ok (some t) → t.userId = ("B")) ∧
    (∀ sid u now res store',
        update_sale true ("B") sid u now [saleA] = Except.ok (res, store') →
        ∀ t ∈ [saleA], t.userId ≠ ("B") → t ∈ store') ∧
    (∀ sid b store', delete_sale true ("B") sid [saleA] = Except.ok (b, store') →
        ∀ t ∈ [saleA], t.userId ≠ ("B") → t ∈ store')) :=
  ⟨⟨by decide, by decide, by decide⟩,
    tenant_isolation [saleA] saleA ("B") (by decide) (by decide) (by decide)⟩

/-- Claim C4: `update_sale` is read-merge-write with a frame condition — on a
present item it changes exactly the fields carried by the payload plus
`updatedAt` (stamped to now), keeps `id`/`userId`/`createdAt` and every
unspecified field, touches no other stored item, and on an absent item it
returns `none` without writing. -/
theorem update_read_merge_write (store : Store) (uid sid : String)
    (u : SaleUpdate) (now : String) :
    (cosmosReadItem store uid sid = none →
        update_sale true uid sid u now store = Except.ok (none, store)) ∧
    (∀ ex, cosmosReadItem store uid sid = some ex →
        ∃ r store', update_sale true uid sid u now store = Except.ok (some r, store') ∧
          r.id = ex.id ∧ r.userId = ex.userId ∧ r.createdAt = ex.createdAt ∧
          r.updatedAt = now ∧
          r.productName = u.productName.getD ex.productName ∧
          r.amount = u.amount.getD ex.amount ∧
          r.saleDate = u.saleDate.getD ex.saleDate ∧
          r.platform = u.platform.getD ex.platform ∧
          r.customerName = (match u.customerName with
            | none => ex.customerName
            | some c => c) ∧
          store'.length = store.length ∧
          (∀ t ∈ store, matchKey uid sid t = false → t ∈ store')) := by
  constructor
  · intro hnone
    simp [update_sale, hnone]
  · intro ex hex
    refine ⟨mergeUpdate ex u now,
      store.map (fun t => if matchKey uid sid t then mergeUpdate ex u now else t),
      ?_, rfl, rfl, rfl, rfl, rfl, rfl, rfl, rfl, rfl, List.length_map _ _, ?_⟩
    · simp [update_sale, hex]
    · intro t htmem htf
      refine List.mem_map.mpr ⟨t, htmem, ?_⟩
      simp [htf]

/-- Concrete stored sale used to witness the update frame condition. -/
def saleU : SaleItem :=
  { id := ("s1")
    userId := ("u1")
    productName := ("Old Name")
    amount := 10
    saleDate := ("2024-02-01T00:00:00Z")
    customerName := some ("Alice")
    platform := Platform.ebay
    createdAt := ("2024-02-01T00:00:02+00:00")
    updatedAt := ("2024-02-01T00:00:02+00:00") }

/-- Claim C4, witness: the merge at a one-item store with a payload carrying
only `amount`. -/
theorem update_read_merge_write_witness :
    cosmosReadItem [saleU] ("u1") ("s1") = some saleU ∧
    (∃ r store',
        update_sale true ("u1") ("s1")
          { productName := none, amount := some 25, saleDate := none,
            customerName := none, platform := none } ("T2") [saleU] =
          Except.ok (some r, store') ∧
        r.id = saleU.id ∧ r.userId = saleU.userId ∧ r.createdAt = saleU.createdAt ∧
        r.updatedAt = ("T2") ∧
        r.productName = (Option.getD none saleU.productName) ∧
        r.amount = (Option.getD (some 25) saleU.amount) ∧
        r.saleDate = (Option.getD none saleU.saleDate) ∧
        r.platform = (Option.getD none saleU.platform) ∧
        r.customerName = saleU.customerName ∧
        store'.length = ([saleU] : Store).length ∧
        (∀ t ∈ ([saleU] : Store), matchKey ("u1") ("s1") t = false → t ∈ store')) :=
  ⟨rfl,
    (update_read_merge_write [saleU] ("u1") ("s1")
      { productName := none, amount := some 25, saleDate := none,
        customerName := none, platform := none } ("T2")).2 saleU rfl⟩

/-- The month filter of `get_dashboard_stats` equals the `saleDate`-scoped
filter of the tenant's records. -/
theorem month_filter_eq (uid cm : String) (store : Store) :
    store.filter (fun s => decide (s.userId = uid) && startsWithCosmos s.saleDate cm) =
      (store.filter (fun s => decide (s.userId = uid))).filter
        (fun s => startsWithCosmos s.saleDate cm) := by
  rw [List.filter_filter]
  apply List.filter_congr
  intro a _
  exact Bool.and_comm _ _

/-- A `SUM`-style aggregate result collapses to the plain sum (empty record
sets yield zero). -/
theorem sum_if_empty (l : List ℚ) :
    firstOrZero (if l.isEmpty then [] else [some l.sum]) = l.sum := by
  by_cases h : l.isEmpty
  · rw [if_pos h, List.isEmpty_iff.mp h]
    rfl
  · rw [if_neg h]
    rfl

/-- The `AVG` aggregate result collapses to the average with a zero default. -/
theorem avg_if_empty (l : List ℚ) :
    firstOrZero (if l.isEmpty then [] else [some (l.sum / (l.length : ℚ))]) =
      if l.length = 0 then (0 : ℚ) else l.sum / (l.length : ℚ) := by
  by_cases h : l.isEmpty
  · rw [if_pos h]
    have hl : l = [] := List.isEmpty_iff.mp h
    subst hl
    rfl
  · rw [if_neg h]
    have hl : l ≠ [] := fun hn => h (by simp [hn])
    rw [if_neg (fun hz => hl (List.length_eq_zero.mp hz))]
    rfl

/-- Closed form of `get_dashboard_stats` with a live client. -/
theorem get_dashboard_stats_char (uid cm : String) (store : Store) :
    get_dashboard_stats true uid cm store = Except.ok
      { totalSales :=
          ((store.filter (fun s => decide (s.userId = uid))).map (fun s => s.amount)).sum
        totalItems := (store.filter (fun s => decide (s.userId = uid))).length
        thisMonth :=
          (((store.filter (fun s => decide (s.userId = uid))).filter
            (fun s => startsWithCosmos s.saleDate cm)).map (fun s => s.amount)).sum
        avgPrice :=
          if (store.filter (fun s => decide (s.userId = uid))).length = 0 then (0 : ℚ)
          else ((store.filter (fun s => decide (s.userId = uid))).map (fun s => s.amount)).sum /
            ((store.filter (fun s => decide (s.userId = uid))).length : ℚ) } := by
  unfold get_dashboard_stats
  simp only [Bool.not_true, Bool.false_eq_true, if_false, Except.ok.injEq,
    DashboardStats.mk.injEq]
  refine ⟨sum_if_empty _, ?_, ?_, ?_⟩
  · simp [firstOrZeroNat, List.length_map]
  · rw [month_filter_eq, sum_if_empty]
  · rw [avg_if_empty, List.length_map]

/-- Claim C5: the dashboard stats are the four tenant-scoped aggregates —
`totalSales` is the sum of amounts over the tenant's records, `totalItems`
their count, `avgPrice` their average (zero when there are no records), and
`thisMonth` the sum of amounts over records whose `saleDate` starts with the
current UTC year-month; aggregates with no rows or null values yield zero. -/
theorem dashboard_stats_aggregates (uid cm : String) (store : Store) :
    ∃ st, get_dashboard_stats true uid cm store = Except.ok st ∧
      st.totalSales =
        ((store.filter (fun s => decide (s.userId = uid))).map (fun s => s.amount)).sum ∧
      st.totalItems = (store.filter (fun s => decide (s.userId = uid))).length ∧
      st.avgPrice =
        (if (store.filter (fun s => decide (s.userId = uid))).length = 0 then (0 : ℚ)
          else ((store.filter (fun s => decide (s.userId = uid))).map (fun s => s.amount)).sum /
            ((store.filter (fun s => decide (s.userId = uid))).length : ℚ)) ∧
      st.thisMonth =
        (((store.filter (fun s => decide (s.userId = uid))).filter
          (fun s => startsWithCosmos s.saleDate cm)).map (fun s => s.amount)).sum :=
  ⟨_, get_dashboard_stats_char uid cm store, rfl, rfl, rfl, rfl⟩

/-- Claim C9: over a fixed tenant dataset, zero items force zero total and
zero average, and with at least one item the total equals the average times
the count, exactly in rational arithmetic. -/
theorem dashboard_stats_invariant (c : Bool) (uid cm : String) (store : Store)
    (st : DashboardStats) (h : get_dashboard_stats c uid cm store = Except.ok st) :
    (st.totalItems = 0 → st.totalSales = 0 ∧ st.avgPrice = 0) ∧
    (0 < st.totalItems → st.totalSales = st.avgPrice * (st.totalItems : ℚ)) := by
  cases c with
  | false =>
      simp only [get_dashboard_stats, Bool.not_false, if_true, Except.ok.injEq] at h
      rw [← h]
      exact ⟨fun _ => ⟨rfl, rfl⟩, fun hpos => absurd hpos (by simp)⟩
  | true =>
      rw [get_dashboard_stats_char uid cm store] at h
      injection h with h2
      subst h2
      constructor
      · intro hz
        simp only [] at hz ⊢
        have hnil : store.filter (fun s => decide (s.userId = uid)) = [] :=
          List.length_eq_zero.mp hz
        constructor
        · simp [hnil]
        · simp [hz]
      · intro hpos
        simp only [] at hpos ⊢
        have hne : (store.filter (fun s => decide (s.userId = uid))).length ≠ 0 :=
          Nat.pos_iff_ne_zero.mp hpos
        rw [if_neg hne]
        have hq : (((store.filter (fun s => decide (s.userId = uid))).length : ℕ) : ℚ) ≠ 0 :=
          Nat.cast_ne_zero.mpr hne
        rw [div_mul_cancel₀ _ hq]

/-- Concrete sale used to witness the dashboard arithmetic invariant. -/
def saleD : SaleItem :=
  { id := ("s9")
    userId := ("u1")
    productName := ("Widget")
    amount := 10
    saleDate := ("2024-03-01T00:00:00Z")
    customerName := none
    platform := Platform.manual
    createdAt := ("2024-03-01T00:00:03+00:00")
    updatedAt := ("2024-03-01T00:00:03+00:00") }

/-- The stats of the one-sale store of `saleD`. -/
def statsD : DashboardStats :=
  { totalSales := 10, totalItems := 1, thisMonth := 10, avgPrice := 10 }

/-- `get_dashboard_stats` evaluated on the one-sale store of `saleD`. -/
theorem get_dashboard_stats_saleD :
    get_dashboard_stats true ("u1") ("2024-03") [saleD] = Except.ok statsD := by
  rw [get_dashboard_stats_char]
  have hfilter : ([saleD] : Store).filter (fun s => decide (s.userId = ("u1"))) = [saleD] := by
    decide
  have hmonth : ([saleD] : Store).filter (fun s => startsWithCosmos s.saleDate ("2024-03")) = [saleD] := by
    decide
  rw [hfilter, hmonth]
  simp [saleD, statsD]

/-- Claim C9, witness: the invariant at a one-sale store. -/
theorem dashboard_stats_invariant_witness :
    get_dashboard_stats true ("u1") ("2024-03") [saleD] = Except.ok statsD ∧
    ((statsD.totalItems = 0 → statsD.totalSales = 0 ∧ statsD.avgPrice = 0) ∧
      (0 < statsD.totalItems →
        statsD.totalSales = statsD.avgPrice * (statsD.totalItems : ℚ))) :=
  ⟨get_dashboard_stats_saleD,
    dashboard_stats_invariant true ("u1") ("2024-03") [saleD] statsD
      get_dashboard_stats_saleD⟩

/-- Claim C6: for a valid create payload, the created sale has positive
amount, a non-empty id equal to the drawn UUID string (distinct draws give
distinct ids across repeated creates), equal creation and update timestamps,
and is appended to the tenant's partition. -/
theorem create_sale_spec (uid : String) (d : SaleCreate) (now : String)
    (ns ns' : List (Fin 16)) (store : Store)
    (hval : d.valid) (hfresh : cosmosReadItem store uid (uuid_str ns) = none) :
    ∃ r store', create_sale true uid d now (uuid_str ns) store = Except.ok (r, store') ∧
      0 < r.amount ∧ r.id = uuid_str ns ∧ r.id ≠ "" ∧ r.createdAt = r.updatedAt ∧
      (ns ≠ ns' → r.id ≠ uuid_str ns') ∧ store' = store ++ [r] := by
  refine ⟨newSaleItem uid d now (uuid_str ns),
    store ++ [newSaleItem uid d now (uuid_str ns)],
    ?_, hval.1, rfl, uuid_str_ne_empty ns, rfl,
    fun hne heq => hne (uuid_str_injective heq), rfl⟩
  simp [create_sale, hfresh]

/-- Concrete valid create payload used in witnesses. -/
def createD : SaleCreate :=
  { productName := ("Widget")
    amount := 10
    saleDate := ("2024-03-01T00:00:00Z")
    customerName := none
    platform := Platform.manual }

/-- Claim C6, witness: a create on the empty store with the empty-draw UUID. -/
theorem create_sale_spec_witness :
    createD.valid ∧ cosmosReadItem [] ("u1") (uuid_str []) = none ∧
    (∃ r store',
        create_sale true ("u1") createD ("T0") (uuid_str []) [] = Except.ok (r, store') ∧
        0 < r.amount ∧ r.id = uuid_str [] ∧ r.id ≠ "" ∧ r.createdAt = r.updatedAt ∧
        (([] : List (Fin 16)) ≠ [0] → r.id ≠ uuid_str [0]) ∧ store' = [] ++ [r]) :=
  ⟨⟨by norm_num [createD], by decide, by decide, fun c h => by cases h⟩, rfl,
    create_sale_spec ("u1") createD ("T0") [] [0] []
      ⟨by norm_num [createD], by decide, by decide, fun c h => by cases h⟩ rfl⟩

/-- Claim C7: the recent-sales route passes `min(limit, 20)` to the storage
gateway, so the response carries at most `min(limit, 20)` — in particular at
most 20 — items, and equals exactly what the gateway returns for the clamped
limit. -/
theorem recent_limit_clamped (c : Bool) (limit : ℤ) (uid : String) (store : Store) :
    (api_get_recent_sales c limit uid store).2.length ≤ (min limit 20).toNat ∧
    (api_get_recent_sales c limit uid store).2.length ≤ 20 ∧
    (∀ r, get_recent_sales c uid (min limit 20) store = Except.ok r →
      (api_get_recent_sales c limit uid store).2 = r) := by
  cases c with
  | false =>
      refine ⟨?_, ?_, ?_⟩
      · simp [api_get_recent_sales, get_recent_sales]
      · simp [api_get_recent_sales, get_recent_sales]
      · intro r hr
        simp only [get_recent_sales, Bool.not_false, if_true, Except.ok.injEq] at hr
        simp [api_get_recent_sales, get_recent_sales, ← hr]
  | true =>
      have happ : (api_get_recent_sales true limit uid store).2 =
          ((sortBySaleDateDesc (store.filter (fun s => decide (s.userId = uid)))).take
            (min limit 20).toNat).map toRecent := by
        simp [api_get_recent_sales, get_recent_sales]
      have hlen : (api_get_recent_sales true limit uid store).2.length ≤
          (min limit 20).toNat := by
        rw [happ, List.length_map, List.length_take]
        exact min_le_left _ _
      refine ⟨hlen, le_trans hlen ?_, ?_⟩
      · have h20 : min limit 20 ≤ (20 : ℤ) := min_le_right _ _
        exact Int.toNat_le.mpr (by exact_mod_cast h20)
      · intro r hr
        simp only [get_recent_sales, Bool.not_true, Bool.false_eq_true, if_false,
          Except.ok.injEq] at hr
        rw [happ, ← hr]

/-- Claim C7, witness: a request with `limit = 100` gets at most 20 items. -/
theorem recent_limit_clamped_witness :
    (api_get_recent_sales true 100 ("u1") []).2.length ≤ 20 ∧
    get_recent_sales true ("u1") (min 100 20) [] = Except.ok [] ∧
    (api_get_recent_sales true 100 ("u1") []).2 = [] :=
  have hnil : get_recent_sales true ("u1") (min 100 20) [] = Except.ok [] := by
    simp [get_recent_sales, sortBySaleDateDesc]
  ⟨(recent_limit_clamped true 100 ("u1") []).2.1, hnil,
    (recent_limit_clamped true 100 ("u1") []).2.2 [] hnil⟩

/-- Claim C8: delete is an unconditional delete by partition key + id that
reports whether an item existed — an existing sale yields 204 and is gone
afterwards, a nonexistent id yields 404, and a second delete of the same id
yields 404. -/
theorem delete_sale_semantics (uid sid : String) (store : Store)
    (huniq : (store.filter (matchKey uid sid)).length ≤ 1) :
    (∀ s, cosmosReadItem store uid sid = some s →
        ∃ store', delete_sale true uid sid store = Except.ok (true, store') ∧
          api_delete_sale true uid sid store = (204, store') ∧
          cosmosReadItem store' uid sid = none ∧
          delete_sale true uid sid store' = Except.ok (false, store') ∧
          api_delete_sale true uid sid store' = (404, store')) ∧
    (cosmosReadItem store uid sid = none →
        delete_sale true uid sid store = Except.ok (false, store) ∧
        api_delete_sale true uid sid store = (404, store)) := by
  constructor
  · intro s hsome
    have hnone : cosmosReadItem (store.eraseP (matchKey uid sid)) uid sid = none :=
      find?_eraseP_of_count _ _ huniq
    refine ⟨store.eraseP (matchKey uid sid), ?_, ?_, hnone, ?_, ?_⟩
    · simp [delete_sale, hsome]
    · simp [api_delete_sale, delete_sale, hsome]
    · simp [delete_sale, hnone]
    · simp [api_delete_sale, delete_sale, hnone]
  · intro hnone
    constructor
    · simp [delete_sale, hnone]
    · simp [api_delete_sale, delete_sale, hnone]

/-- Concrete sale used to witness delete semantics. -/
def saleE : SaleItem :=
  { id := ("s1")
    userId := ("u1")
    productName := ("Widget")
    amount := 10
    saleDate := ("2024-03-02T00:00:00Z")
    customerName := none
    platform := Platform.goat
    createdAt := ("2024-03-02T00:00:04+00:00")
    updatedAt := ("2024-03-02T00:00:04+00:00") }

/-- Claim C8, witness: deleting the only sale gives 204 and removes it; the
second delete of the same id gives 404. -/
theorem delete_sale_semantics_witness :
    (([saleE] : Store).filter (matchKey ("u1") ("s1"))).length ≤ 1 ∧
    cosmosReadItem [saleE] ("u1") ("s1") = some saleE ∧
    (∃ store', delete_sale true ("u1") ("s1") [saleE] = Except.ok (true, store') ∧
      api_delete_sale true ("u1") ("s1") [saleE] = (204, store') ∧
      cosmosReadItem store' ("u1") ("s1") = none ∧
      delete_sale true ("u1") ("s1") store' = Except.ok (false, store') ∧
      api_delete_sale true ("u1") ("s1") store' = (404, store')) :=
  ⟨by decide, rfl,
    (delete_sale_semantics ("u1") ("s1") [saleE] (by decide)).1 saleE rfl⟩

/-- Concrete create payload for the degraded-mode counterexample. -/
def createX : SaleCreate :=
  { productName := ("Widget")
    amount := 5
    saleDate := ("2024-01-02T00:00:00Z")
    customerName := none
    platform := Platform.ebay }

/-- Claim C3, counterexample: with no store client, the create WRITE returns
a mock sale as if it had succeeded (no error, nothing persisted), and the
get-by-id READ raises a `RuntimeError` instead of returning an empty result. -/
theorem degraded_mode_cex :
    create_sale false ("u1") createX ("T0") ("id-0") [] =
      Except.ok (newSaleItem ("u1") createX ("T0") ("id-0"), []) ∧
    get_sale false ("u1") ("id-0") [] =
      Except.error (PyErr.runtimeError
        ("Cosmos DB client not initialized. Please check your connection string.")) :=
  ⟨rfl, rfl⟩

/-- Claim C3 (amended): in degraded mode, list/recent/stats reads return
empty collections or zeroed stats; get-by-id, update, and delete raise
errors; create does not fail — it returns an unpersisted mock sale as if the
write had succeeded. -/
theorem degraded_mode (uid sid cm now sale_id : String) (d : SaleCreate)
    (u : SaleUpdate) (limit : ℤ) (store : Store) :
    get_sales_by_user false uid limit store = Except.ok [] ∧
    get_recent_sales false uid limit store = Except.ok [] ∧
    get_dashboard_stats false uid cm store =
      Except.ok { totalSales := 0, totalItems := 0, thisMonth := 0, avgPrice := 0 } ∧
    (∃ e, get_sale false uid sid store = Except.error e) ∧
    (∃ e, update_sale false uid sid u now store = Except.error e) ∧
    (∃ e, delete_sale false uid sid store = Except.error e) ∧
    (∃ r, create_sale false uid d now sale_id store = Except.ok (r, store)) :=
  ⟨rfl, rfl, rfl, ⟨_, rfl⟩, ⟨_, rfl⟩, ⟨_, rfl⟩, ⟨_, rfl⟩⟩
